import Mathlib

/-!
Shallow embedding of the OpenF1 Formula 1 data-engineering pipeline
(`src/data_processing.py`, `src/session_object.py`, `src/helper_functions.py`).

Modelling conventions:
  * HTTP responses are values `HttpResponse α` (status code plus decoded
    JSON body as a list of records); the network itself is modelled by
    passing response values (or response-producing functions) as arguments.
  * Python exceptions are the error side of `Except PyErr`; functions that
    return `None` on failure return `Option`.
  * pandas DataFrames are lists of record structures; timestamps are
    integers (epoch seconds); float-valued durations are `Option ℚ`
    (`none` models NaN, which propagates through sums like NaN does).
  * `pd.merge_asof(..., direction="backward")` on sorted keys picks, for
    each left row, the last right row whose key is not larger.
  * Display-only DataFrame columns (driver acronym, team colour) and
    logging side effects are omitted; warnings that the claims mention are
    returned explicitly as string lists.
  * The retry loop on HTTP 429 consumes a list of pending responses; an
    exhausted list models the loop still spinning (result `none`).
-/

/-- Python-level failure outcomes raised by the pipeline. -/
inductive PyErr where
  | valueStatus : Nat → PyErr
  | valueNoData : PyErr
  | keyError : PyErr
  | indexError : PyErr
  | attributeError : PyErr
  | invalidSessionType : PyErr
  | redFlag : PyErr
  deriving DecidableEq

/-- An HTTP GET request: url plus optional query parameters. -/
structure Request where
  url : String
  params : Option (List (String × String))
  deriving DecidableEq

/-- An HTTP response: status code plus decoded JSON body (a list of records). -/
structure HttpResponse (α : Type) where
  status : Nat
  body : List α
  deriving DecidableEq

namespace HelperFunctions

/-- Embeds the non-429 tail of `helper_functions.check_request`: a non-200
status raises `ValueError` (carrying the status), an empty payload raises
`ValueError` ("No session data found"), otherwise the body is returned. -/
def parseResponse {α : Type} (r : HttpResponse α) : Except PyErr (List α) :=
  if r.status ≠ 200 then .error (.valueStatus r.status)
  else if r.body.isEmpty then .error .valueNoData
  else .ok r.body

/-- Embeds `helper_functions.check_request`. While the current response has
status 429 the identical request is re-issued after a 5 second delay,
consuming the next pending response. Returns the list of retry requests
issued, the list of delays (seconds) slept before each retry, and the final
parse outcome; `none` models the loop never receiving a non-429 response. -/
def check_request {α : Type} (req : Request) :
    HttpResponse α → List (HttpResponse α) →
    Option (List Request × List Nat × Except PyErr (List α))
  | resp, [] =>
    if resp.status = 429 then none
    else some ([], [], parseResponse resp)
  | resp, r :: rest =>
    if resp.status = 429 then
      match check_request req r rest with
      | none => none
      | some (reqs, delays, res) => some (req :: reqs, 5 :: delays, res)
    else some ([], [], parseResponse resp)

end HelperFunctions

/-- A raw lap record from the laps endpoint (columns used by the pipeline). -/
structure RawLap where
  driver_number : ℤ
  lap_number : ℤ
  date_start : ℤ
  duration_sector_1 : Option ℚ
  duration_sector_2 : Option ℚ
  duration_sector_3 : Option ℚ
  lap_duration : Option ℚ
  is_pit_out_lap : Option Bool
  deriving DecidableEq

/-- Rounding to three decimal places, as `round(x, 3)`. -/
def round3 (q : ℚ) : ℚ := (round (q * 1000) : ℤ) / 1000

/-- Sum of the three sector durations rounded to 3 decimals; any NaN sector
(`none`) makes the result NaN, as float addition does. -/
def sumSectors (a b c : Option ℚ) : Option ℚ :=
  match a, b, c with
  | some x, some y, some z => some (round3 (x + y + z))
  | _, _, _ => none

/-- A lap row after the derived `actual_lap_time` column has been added. -/
structure LapRow extends RawLap where
  actual_lap_time : Option ℚ
  deriving DecidableEq

/-- Embeds the derived-column computation
`df["actual_lap_time"] = round(s1 + s2 + s3, 3)` performed on every fetched
lap row (data_processing.py line 88, session_object.py line 144). -/
def addActualLapTime (l : RawLap) : LapRow :=
  { l with actual_lap_time :=
      sumSectors l.duration_sector_1 l.duration_sector_2 l.duration_sector_3 }

/-- A stint record from the stints endpoint. -/
structure Stint where
  lap_start : ℤ
  lap_end : ℤ
  compound : Option String
  tyre_age_at_start : Option ℤ
  stint_number : Option ℤ
  deriving DecidableEq

/-- A lap row after the tire join added the columns "Compound", "Tire Age"
and "Stint Number". -/
structure TireLapRow where
  base : LapRow
  compound : Option String
  tire_age : Option ℤ
  stint_number : Option ℤ
  deriving DecidableEq

namespace DataProcessing

/-- Initial tire columns: all set to `None`. -/
def initTireRow (l : LapRow) : TireLapRow := ⟨l, none, none, none⟩

/-- Embeds the inner loop of `data_processing.assign_tire_information_to_lap`
for one stint: walks the lap rows in order, and for each row whose
`lap_number` lies in `[lap_start, lap_end]` writes the stint's compound and
stint number and a tire age of `tyre_age_at_start + i`, where `i` is the
enumeration index of the row among the stint's matched rows. `none_found`
is set when a matched stint field is null. -/
def applyStint (s : Stint) : List TireLapRow → ℤ → Bool → List TireLapRow × Bool
  | [], _, flag => ([], flag)
  | r :: rs, i, flag =>
    if s.lap_start ≤ r.base.lap_number ∧ r.base.lap_number ≤ s.lap_end then
      let r' : TireLapRow :=
        { r with compound := s.compound,
                 tire_age := s.tyre_age_at_start.map (fun a => a + i),
                 stint_number := s.stint_number }
      let flag' := flag || s.compound.isNone || s.tyre_age_at_start.isNone
          || s.stint_number.isNone
      let rec' := applyStint s rs (i + 1) flag'
      (r' :: rec'.1, rec'.2)
    else
      let rec' := applyStint s rs i flag
      (r :: rec'.1, rec'.2)

/-- Embeds `data_processing.assign_tire_information_to_lap`: initializes the
three tire columns to `None`, then applies every stint in order. -/
def assign_tire_information_to_lap (laps : List LapRow) (stints : List Stint) :
    List TireLapRow × Bool :=
  stints.foldl (fun acc s => applyStint s acc.1 0 acc.2) (laps.map initTireRow, false)

end DataProcessing

/-- Ordering used to sort lap rows by `lap_number`. -/
def lapNumberLE (a b : LapRow) : Prop := a.lap_number ≤ b.lap_number

instance : DecidableRel lapNumberLE := fun a b => Int.decLe a.lap_number b.lap_number

/-- Ordering used to sort stint rows by `lap_start`. -/
def stintStartLE (a b : Stint) : Prop := a.lap_start ≤ b.lap_start

instance : DecidableRel stintStartLE := fun a b => Int.decLe a.lap_start b.lap_start

namespace SessionObject

/-- Embeds `pd.merge_asof(..., left_on="lap_number", right_on="lap_start",
direction="backward")` for one left key: the last stint in the sorted stint
list whose `lap_start` does not exceed the lap number, if any. -/
def matchStint (ss : List Stint) (n : ℤ) : Option Stint :=
  ss.foldl (fun acc s => if s.lap_start ≤ n then some s else acc) none

/-- One merged row of `Session.assign_tire_information_to_lap`, after the
rows beyond the end of their stint were nulled out (lines 66-70): carries
the stint columns and the derived "Tire Age". -/
structure MergedRow where
  base : LapRow
  compound : Option String
  tyre_age_at_start : Option ℤ
  stint_number : Option ℤ
  tire_age : Option ℤ
  deriving DecidableEq

/-- Builds the merged row for one lap: a backward match whose `lap_end` is
at least the lap number keeps the stint columns and gets
`Tire Age = lap_number - lap_start + tyre_age_at_start`; otherwise all
stint-derived columns are `None`. -/
def mergeRow (ss : List Stint) (l : LapRow) : MergedRow :=
  match matchStint ss l.lap_number with
  | some s =>
    if l.lap_number ≤ s.lap_end then
      ⟨l, s.compound, s.tyre_age_at_start, s.stint_number,
        s.tyre_age_at_start.map (fun a => l.lap_number - s.lap_start + a)⟩
    else ⟨l, none, none, none, none⟩
  | none => ⟨l, none, none, none, none⟩

/-- Embeds `Session.assign_tire_information_to_lap`: sorts laps by
`lap_number` and stints by `lap_start`, performs the backward as-of merge,
nulls rows beyond their stint's end, assigns the final columns, and reports
whether any merged row has a null compound, tyre age or stint number. -/
def assign_tire_information_to_lap (laps : List LapRow) (stints : List Stint) :
    List TireLapRow × Bool :=
  let ls := List.insertionSort lapNumberLE laps
  let ss := List.insertionSort stintStartLE stints
  let merged := ls.map (mergeRow ss)
  (merged.map (fun m => ⟨m.base, m.compound, m.tire_age, m.stint_number⟩),
   merged.any (fun m =>
     m.compound.isNone || m.tyre_age_at_start.isNone || m.stint_number.isNone))

/-- The per-driver lap assembly of `Session.get_session_laps_data` lines
141-151: add the derived `actual_lap_time` column to the raw laps, then
join the stint data. -/
def assemble_driver_laps (raw : List RawLap) (stints : List Stint) : List TireLapRow :=
  (assign_tire_information_to_lap (raw.map addActualLapTime) stints).1

end SessionObject

/-- A driver record from the drivers endpoint (columns used here). -/
structure DriverRec where
  driver_number : ℤ
  name_acronym : String
  deriving DecidableEq

/-- Embeds `pandas.Series.unique` with an accumulator of already-seen
values: keeps the first occurrence of each value, in order. -/
def uniqueFirstGo {α : Type} [DecidableEq α] (seen : List α) : List α → List α
  | [] => []
  | a :: rest =>
    if a ∈ seen then uniqueFirstGo seen rest
    else a :: uniqueFirstGo (a :: seen) rest

/-- Embeds `pandas.Series.unique`: first occurrences, in order. -/
def uniqueFirst {α : Type} [DecidableEq α] (l : List α) : List α := uniqueFirstGo [] l

namespace DataProcessing

/-- Embeds `data_processing.get_all_drivers_in_session`: on a non-200 status
returns `None`; otherwise takes the unique driver numbers and unique
acronyms and, when their counts differ, returns `None`, else pairs them
positionally. -/
def get_all_drivers_in_session (status : Nat) (rows : List DriverRec) :
    Option (List (ℤ × String)) :=
  if status ≠ 200 then none
  else
    let nums := uniqueFirst (rows.map (fun r => r.driver_number))
    let acs := uniqueFirst (rows.map (fun r => r.name_acronym))
    if nums.length ≠ acs.length then none
    else some (nums.zip acs)

end DataProcessing

namespace SessionObject

/-- Embeds the dict comprehension
`{int(number): driver_acronyms[driver_idx] for driver_idx, number in
enumerate(driver_numbers)}`: pairs the idx-th number with the idx-th
acronym; a missing index raises `IndexError`. -/
def buildMatching : List ℤ → List String → Except PyErr (List (ℤ × String))
  | [], _ => .ok []
  | _ :: _, [] => .error .indexError
  | n :: ns, a :: acs => (buildMatching ns acs).map (fun t => (n, a) :: t)

/-- Embeds `Session.drivers_match_numbers_to_acronyms`: checks the drivers
response, takes the unique numbers and acronyms, and builds the positional
number-to-acronym mapping with no count check. -/
def drivers_match_numbers_to_acronyms (resp : HttpResponse DriverRec) :
    Except PyErr (List (ℤ × String)) :=
  match HelperFunctions.parseResponse resp with
  | .error e => .error e
  | .ok rows =>
    buildMatching (uniqueFirst (rows.map (fun r => r.driver_number)))
      (uniqueFirst (rows.map (fun r => r.name_acronym)))

end SessionObject

/-- One entry of the dictionary built by
`data_processing.get_all_laps_in_session`. -/
structure DpDriverEntry where
  lap_data : List TireLapRow
  acronym : String
  fastest_lap : Option TireLapRow
  deriving DecidableEq

namespace DataProcessing

/-- Embeds `lap_duration.idxmin` over the non-null entries (first occurrence
of the minimum), as used by `add_driver_fastest_session_lap_to_data`. -/
def idxminLapDuration (rows : List TireLapRow) : Option TireLapRow :=
  rows.foldl (fun acc r =>
    match r.base.lap_duration with
    | none => acc
    | some q =>
      match acc with
      | none => some r
      | some b =>
        match b.base.lap_duration with
        | some qb => if q < qb then some r else acc
        | none => some r) none

/-- Embeds the per-driver loop of `data_processing.get_all_laps_in_session`.
`lapResp d` is the (post-retry) status and payload of the laps request for
driver `d`; `stintsF d` its stint records (the stint and colour fetches are
modelled as succeeding). A non-200 status aborts with `None`; an empty
payload skips the driver; otherwise the derived columns and the tire join
are computed and the driver's entry is appended. -/
def getAllLapsGo (lapResp : ℤ → Nat × List RawLap) (stintsF : ℤ → List Stint) :
    List (ℤ × String) → Option (List (ℤ × DpDriverEntry))
  | [] => some []
  | (d, acr) :: rest =>
    let r := lapResp d
    if r.1 ≠ 200 then none
    else if r.2 = [] then getAllLapsGo lapResp stintsF rest
    else
      let df := r.2.map addActualLapTime
      let joined := assign_tire_information_to_lap df (stintsF d)
      let entry : DpDriverEntry := ⟨joined.1, acr, idxminLapDuration joined.1⟩
      match getAllLapsGo lapResp stintsF rest with
      | none => none
      | some out => some ((d, entry) :: out)

/-- Embeds `data_processing.get_all_laps_in_session` given the resolved
driver matching. -/
def get_all_laps_in_session (matching : List (ℤ × String))
    (lapResp : ℤ → Nat × List RawLap) (stintsF : ℤ → List Stint) :
    Option (List (ℤ × DpDriverEntry)) :=
  getAllLapsGo lapResp stintsF matching

end DataProcessing

namespace SessionObject

/-- Embeds the per-driver loop of `Session.get_session_laps_data`: every
driver's laps response goes through `check_request` (modelled here by
`parseResponse`, the response being past the 429 loop), so a non-200 status
or an empty payload raises and aborts the whole assembly. -/
def getSessionLapsGo (lapResp : ℤ → HttpResponse RawLap) (stintsF : ℤ → List Stint) :
    List (ℤ × String) → Except PyErr (List (ℤ × List TireLapRow))
  | [] => .ok []
  | (d, _) :: rest =>
    match HelperFunctions.parseResponse (lapResp d) with
    | .error e => .error e
    | .ok payload =>
      let df := payload.map addActualLapTime
      let joined := assign_tire_information_to_lap df (stintsF d)
      match getSessionLapsGo lapResp stintsF rest with
      | .error e => .error e
      | .ok out => .ok ((d, joined.1) :: out)

/-- Embeds `Session.get_session_laps_data` given the resolved matching. -/
def get_session_laps_data (matching : List (ℤ × String))
    (lapResp : ℤ → HttpResponse RawLap) (stintsF : ℤ → List Stint) :
    Except PyErr (List (ℤ × List TireLapRow)) :=
  getSessionLapsGo lapResp stintsF matching

end SessionObject

/-- A row of the combined session lap table, with the columns the qualifying
segmenter reads and writes. -/
structure SessionRow where
  driver_number : ℤ
  lap_number : ℤ
  date_start : ℤ
  actual_lap_time : Option ℚ
  is_pit_out_lap : Option Bool
  qualifying : Option String
  deriving DecidableEq

/-- Start of the Q2 window relative to session start: Q1 duration 18 min
plus 7 min buffer, in seconds. -/
def q2StartOffset : ℤ := 18 * 60 + 7 * 60

/-- Start of the Q3 window relative to session start: Q2 start plus Q2
duration 15 min plus 8 min buffer, in seconds. -/
def q3StartOffset : ℤ := q2StartOffset + 15 * 60 + 8 * 60

/-- The window label assigned to a lap starting at `d`, for a session
starting at `T0`: before the Q2 window start it is "Q1", before the Q3
window start "Q2", otherwise "Q3". -/
def labelOf (T0 d : ℤ) : String :=
  if d < T0 + q2StartOffset then "Q1"
  else if d < T0 + q3StartOffset then "Q2"
  else "Q3"

/-- Writes the "Qualifying" column of every row from its start timestamp. -/
def labelRows (T0 : ℤ) (rows : List SessionRow) : List SessionRow :=
  rows.map (fun r => { r with qualifying := some (labelOf T0 r.date_start) })

namespace DataProcessing

/-- Embeds `data_processing.match_laps_to_qualifying_session` given the
session's start and end timestamps: a session longer than 70 minutes raises
("Session had red flags"); otherwise every lap is labelled with its window. -/
def match_laps_to_qualifying_session (T0 Tend : ℤ) (rows : List SessionRow) :
    Except PyErr (List SessionRow) :=
  if Tend - T0 > 70 * 60 then .error .redFlag
  else .ok (labelRows T0 rows)

/-- Heap model of `match_laps_to_qualifying_session` for the frame claim:
the caller's table lives at index `i` of `heap`; `lap_df = lap_df.copy()`
allocates a fresh object at the end of the heap and all column writes go to
that copy. Returns the final heap and the index of the returned table. -/
def matchLapsHeap (T0 Tend : ℤ) (heap : List (List SessionRow)) (i : Nat) :
    Except PyErr (List (List SessionRow) × Nat) :=
  match heap.get? i with
  | none => .error .keyError
  | some df =>
    match match_laps_to_qualifying_session T0 Tend df with
    | .error e => .error e
    | .ok labeled => .ok (heap ++ [labeled], heap.length)

end DataProcessing

/-- Embeds the pit-out filter
`qualifying_session[qualifying_session["is_pit_out_lap"] == np.False_]`:
only rows whose flag is exactly `False` are kept (NaN rows are dropped). -/
def pitFiltered (rows : List SessionRow) : List SessionRow :=
  rows.filter (fun r => r.is_pit_out_lap = some false)

/-- Strict comparison of possibly-NaN lap times, with NaN sorted last as
pandas `sort_values` places it. -/
def timeLT (a b : Option ℚ) : Bool :=
  match a, b with
  | some x, some y => decide (x < y)
  | some _, none => true
  | none, _ => false

/-- Row ordering of `sort_values(by=["actual_lap_time", "date_start"])`:
by lap time first, by lap start time as tie-break. -/
def rowLE (a b : SessionRow) : Prop :=
  timeLT a.actual_lap_time b.actual_lap_time = true ∨
    (a.actual_lap_time = b.actual_lap_time ∧ a.date_start ≤ b.date_start)

instance : DecidableRel rowLE := fun a b =>
  inferInstanceAs (Decidable (timeLT a.actual_lap_time b.actual_lap_time = true ∨
    (a.actual_lap_time = b.actual_lap_time ∧ a.date_start ≤ b.date_start)))

/-- Embeds `drop_duplicates(subset=["driver_number"])`: keeps the first row
of each driver, given the drivers already seen. -/
def dedupDriverGo (seen : List ℤ) : List SessionRow → List SessionRow
  | [] => []
  | r :: rs =>
    if r.driver_number ∈ seen then dedupDriverGo seen rs
    else r :: dedupDriverGo (r.driver_number :: seen) rs

/-- The per-window classification of `get_qualifying_results` lines 328-333:
drop pit-out laps, sort by lap time then start time, keep each driver's
first (fastest) row. -/
def qClass (rows : List SessionRow) : List SessionRow :=
  dedupDriverGo [] (List.insertionSort rowLE (pitFiltered rows))

/-- Selects the rows of one qualifying window from the labelled table. -/
def qSeg (label : String) (labeled : List SessionRow) : List SessionRow :=
  labeled.filter (fun r => r.qualifying = some label)

/-- Embeds `DataFrame.tail(5)`: the last five rows. -/
def tail5 (l : List SessionRow) : List SessionRow := l.drop (l.length - 5)

/-- The classification of one window of the labelled session table. -/
def qualClass (label : String) (T0 : ℤ) (rows : List SessionRow) : List SessionRow :=
  qClass (qSeg label (labelRows T0 rows))

namespace DataProcessing

/-- Embeds `data_processing.get_qualifying_results`: requires a qualifying
session, labels the laps, classifies each window, and returns the three
window classifications together with the elimination order: full Q3
classification, then the last five of Q2, then the last five of Q1. -/
def get_qualifying_results (sessionType : String) (T0 Tend : ℤ)
    (rows : List SessionRow) :
    Except PyErr (List (List SessionRow) × List SessionRow) :=
  if sessionType ≠ "Qualifying" then .error .invalidSessionType
  else
    match match_laps_to_qualifying_session T0 Tend rows with
    | .error e => .error e
    | .ok labeled =>
      let c1 := qClass (qSeg "Q1" labeled)
      let c2 := qClass (qSeg "Q2" labeled)
      let c3 := qClass (qSeg "Q3" labeled)
      .ok ([c1, c2, c3], c3 ++ (tail5 c2 ++ tail5 c1))

end DataProcessing

/-- A car telemetry sample (car_data endpoint) with the derived
`seconds_from_lap_start` column. -/
structure CarSample where
  date : ℤ
  speed : ℤ
  throttle : ℤ
  brake : ℤ
  seconds_from_lap_start : ℤ
  deriving DecidableEq

/-- A track position sample (location endpoint) with the derived
`seconds_from_lap_start` column. -/
structure LocSample where
  date : ℤ
  x : ℤ
  y : ℤ
  seconds_from_lap_start : ℤ
  deriving DecidableEq

/-- The populated state of a `Session` object: the per-driver lap tables and
the fastest-laps table. -/
structure SessionState where
  session_lap_data_dict : List (ℤ × List TireLapRow)
  session_fastest_laps : List TireLapRow

/-- Python dict lookup `session_lap_data_dict[driver_number]`. -/
def lookupDriver (dict : List (ℤ × List TireLapRow)) (d : ℤ) :
    Option (List TireLapRow) :=
  (dict.find? (fun p => p.1 = d)).map (fun p => p.2)

/-- Embeds `df.loc[k]` on a table whose index was reset to 0..n-1: the row
whose integer label is `k`, if that label exists. -/
def locRow (df : List TireLapRow) (k : ℤ) : Option TireLapRow :=
  if k < 0 then none else df.get? k.toNat

namespace SessionObject

/-- Embeds `Session.get_lap_start_and_end_time`: reads the lap's start
timestamp and `actual_lap_time` duration either by `.loc[lap_number]` on
the driver's table, or from the first fastest-laps row of the driver. A
missing label raises `KeyError`; an empty fastest filter raises
`IndexError`. -/
def get_lap_start_and_end_time (st : SessionState) (lapN dN : ℤ) (fastest : Bool) :
    Except PyErr (ℤ × Option ℚ) :=
  if fastest then
    match (st.session_fastest_laps.filter (fun r => r.base.driver_number = dN)).get? 0 with
    | none => .error .indexError
    | some row => .ok (row.base.date_start, row.base.actual_lap_time)
  else
    match lookupDriver st.session_lap_data_dict dN with
    | none => .error .keyError
    | some df =>
      match locRow df lapN with
      | none => .error .keyError
      | some row => .ok (row.base.date_start, row.base.actual_lap_time)

end SessionObject

/-- Embeds the time mask `(df["date"] >= start) & (df["date"] <= end)` where
`end = start + duration`; a NaN duration makes both comparisons false. -/
def inLapWindow (start : ℤ) (dur : Option ℚ) (d : ℤ) : Bool :=
  decide (start ≤ d) &&
    (match dur with
     | some q => decide ((d : ℚ) ≤ (start : ℚ) + q)
     | none => false)

namespace SessionObject

/-- Embeds `Session.get_lap_telemetry_data`: a lap number absent from the
driver's lap table logs a warning (returned as the string list) and yields
no result; otherwise the car data response is checked, the derived seconds
column added, and the samples filtered to the lap window. -/
def get_lap_telemetry_data (st : SessionState) (lapN dN : ℤ) (fastest : Bool)
    (carResp : HttpResponse CarSample) :
    List String × Except PyErr (Option (List CarSample)) :=
  match lookupDriver st.session_lap_data_dict dN with
  | none => ([], .error .keyError)
  | some df =>
    if lapN ∈ df.map (fun r => r.base.lap_number) then
      match get_lap_start_and_end_time st lapN dN fastest with
      | .error e => ([], .error e)
      | .ok (start, dur) =>
        match HelperFunctions.parseResponse carResp with
        | .error e => ([], .error e)
        | .ok samples =>
          let dated := samples.map (fun s =>
            { s with seconds_from_lap_start := s.date - start })
          ([], .ok (some (dated.filter (fun s => inLapWindow start dur s.date))))
    else (["Lap number not found in session lap data."], .ok none)

/-- Embeds `Session.get_track_position_for_lap`: resolves the lap window
with no check that the lap number exists, checks the location response,
adds the derived seconds column and filters to the window. -/
def get_track_position_for_lap (st : SessionState) (lapN dN : ℤ) (fastest : Bool)
    (locResp : HttpResponse LocSample) : Except PyErr (List LocSample) :=
  match get_lap_start_and_end_time st lapN dN fastest with
  | .error e => .error e
  | .ok (start, dur) =>
    match HelperFunctions.parseResponse locResp with
    | .error e => .error e
    | .ok samples =>
      .ok ((samples.map (fun s => { s with seconds_from_lap_start := s.date - start })).filter
        (fun s => inLapWindow start dur s.date))

end SessionObject

/-- Ordering of car samples by timestamp. -/
def carDateLE (a b : CarSample) : Prop := a.date ≤ b.date

instance : DecidableRel carDateLE := fun a b => Int.decLe a.date b.date

/-- Ordering of location samples by timestamp. -/
def locDateLE (a b : LocSample) : Prop := a.date ≤ b.date

instance : DecidableRel locDateLE := fun a b => Int.decLe a.date b.date

/-- Embeds `merge_asof(..., direction="nearest")` for one left timestamp:
the location sample whose timestamp is nearest (first such, scanning in
order). -/
def nearestLoc (pos : List LocSample) (t : ℤ) : Option LocSample :=
  pos.foldl (fun acc p =>
    match acc with
    | none => some p
    | some q => if (p.date - t).natAbs < (q.date - t).natAbs then some p else acc) none

namespace SessionObject

/-- Embeds `Session.match_track_position_and_gear`: fetches the lap's car
telemetry, then its track positions, then sorts both by timestamp and
aligns them by nearest timestamp. Sorting a `None` telemetry result raises
`AttributeError`. -/
def match_track_position_and_gear (st : SessionState) (lapN dN : ℤ) (fastest : Bool)
    (carResp : HttpResponse CarSample) (locResp : HttpResponse LocSample) :
    List String × Except PyErr (List (CarSample × Option LocSample)) :=
  let wt := get_lap_telemetry_data st lapN dN fastest carResp
  match wt.2 with
  | .error e => (wt.1, .error e)
  | .ok telOpt =>
    match get_track_position_for_lap st lapN dN fastest locResp with
    | .error e => (wt.1, .error e)
    | .ok pos =>
      match telOpt with
      | none => (wt.1, .error .attributeError)
      | some tel =>
        let telS := List.insertionSort carDateLE tel
        let posS := List.insertionSort locDateLE pos
        (wt.1, .ok (telS.map (fun c => (c, nearestLoc posS c.date))))

end SessionObject

/-! Concrete data used by the closed theorems and witnesses below. -/

/-- The tire-related columns of an assembled lap row, for comparing join
results: lap number, compound, tire age, stint number. -/
def tireProjection (r : TireLapRow) : ℤ × Option String × Option ℤ × Option ℤ :=
  (r.base.lap_number, r.compound, r.tire_age, r.stint_number)

/-- A driver's lap 1 (all sectors 30s). -/
def gapLap1 : RawLap := ⟨1, 1, 100, some 30, some 30, some 30, some 90, some false⟩

/-- A driver's lap 3; the lap table holds no lap 2, so the table has a gap
inside the stint range. -/
def gapLap3 : RawLap := ⟨1, 3, 300, some 30, some 30, some 30, some 90, some false⟩

/-- A stint covering laps 1 to 3 with a fresh SOFT tire. -/
def coveringStint : Stint := ⟨1, 3, some "SOFT", some 0, some 1⟩

/-- A driver's lap 5, covered by no stint of `[coveringStint]`. -/
def uncoveredLap5 : RawLap := ⟨1, 5, 500, some 30, some 30, some 30, some 90, some false⟩

/-- A qualifying-session lap row starting at timestamp `d`. -/
def qualLapAt (d : ℤ) : SessionRow := ⟨1, 1, d, some 90, some false, none⟩

/-- A concrete request used by the retry witness. -/
def lapsRequest : Request := ⟨"https://api.openf1.org/v1/laps", none⟩

/-- Nineteen driver records whose acronyms contain one duplicate: 19 unique
numbers but 18 unique acronyms. -/
def rosterRows : List DriverRec :=
  (List.range 19).map (fun i => ⟨(i : ℤ) + 1, "A" ++ toString (i % 18)⟩)

/-- The roster used by the skipped-driver scenario. -/
def skipMatching : List (ℤ × String) := [(1, "VER"), (44, "HAM")]

/-- Laps responses where driver 1 has a 200 response with an empty payload. -/
def skipLapRespDp : ℤ → Nat × List RawLap :=
  fun d => if d = 1 then (200, []) else (200, [gapLap1])

/-- The same responses for the session-object pipeline. -/
def skipLapRespSo : ℤ → HttpResponse RawLap :=
  fun d => if d = 1 then ⟨200, []⟩ else ⟨200, [gapLap1]⟩

/-- An assembled lap row with literal field values (driver 1, lap `n`). -/
def telemetryLapRow (n : ℤ) : TireLapRow :=
  ⟨⟨⟨1, n, 100 * n, some 30, some 30, some 30, some 90, some false⟩, some 90⟩,
    some "SOFT", some 0, some 1⟩

/-- A session state whose driver 1 has laps 1 and 2 only. -/
def telemetryState : SessionState :=
  ⟨[(1, [telemetryLapRow 1, telemetryLapRow 2])], []⟩

/-- A raw lap whose third sector is fractional, for the lap-time witness. -/
def sectorLap : RawLap := ⟨1, 1, 100, some 30, some 31, some (65 / 2), some 1, some false⟩

/-- The single assembled row of `sectorLap` (with no stint data). -/
def sectorRow : TireLapRow :=
  (SessionObject.assemble_driver_laps [sectorLap] []).getD 0
    ⟨addActualLapTime sectorLap, none, none, none⟩

/-- The set of drivers that have a non-pit-out lap in one qualifying window. -/
def segDrivers (label : String) (T0 : ℤ) (rows : List SessionRow) : Finset ℤ :=
  ((pitFiltered (qSeg label (labelRows T0 rows))).map (fun r => r.driver_number)).toFinset

/-- One lap row of the standard-session witness: driver `d`, start `date`,
lap time `t`. -/
def c5Row (d date : ℤ) (t : ℚ) : SessionRow := ⟨d, 1, date, some t, some false, none⟩

/-- A standard 20-driver qualifying session: drivers 1-20 lap in Q1,
drivers 1-15 in Q2, drivers 1-10 in Q3, and driver `d` always laps in `d`
seconds, so drivers 16-20 are eliminated in Q1 and 11-15 in Q2. -/
def standardSession : List SessionRow :=
  ((List.range 20).map (fun i => c5Row ((i : ℤ) + 1) ((i : ℤ) + 1) (mkRat ((i : ℤ) + 1) 1)))
    ++ ((List.range 15).map (fun i =>
      c5Row ((i : ℤ) + 1) (1500 + (i : ℤ) + 1) (mkRat ((i : ℤ) + 1) 1)))
    ++ ((List.range 10).map (fun i =>
      c5Row ((i : ℤ) + 1) (2880 + (i : ℤ) + 1) (mkRat ((i : ℤ) + 1) 1)))

/-! Theorems. -/

/-- C1: for laps inside a stint's range the assembled lap must carry the
stint's compound and a tire age of `start_tire_age + (lap_number -
start_lap)` even when the lap table is missing lap numbers inside the
range. The data_processing implementation violates this: with laps 1 and 3
and a stint covering 1-3 starting at age 0, it gives lap 3 tire age 1
(positional enumeration index) instead of 0 + (3 - 1) = 2, which the
session_object implementation computes. -/
theorem c1_tire_age_gap_divergence :
    ((DataProcessing.assign_tire_information_to_lap
        ([gapLap1, gapLap3].map addActualLapTime) [coveringStint]).1.map tireProjection)
      = [(1, some "SOFT", some 0, some 1), (3, some "SOFT", some 1, some 1)]
    ∧ (some 1 : Option ℤ) ≠ some (0 + (3 - 1))
    ∧ ((SessionObject.assign_tire_information_to_lap
        ([gapLap1, gapLap3].map addActualLapTime) [coveringStint]).1.map tireProjection)
      = [(1, some "SOFT", some 0, some 1), (3, some "SOFT", some (0 + (3 - 1)), some 1)] := by
  refine ⟨by decide, by decide, by decide⟩

/-- C2: a lap covered by no stint keeps null tire fields and stays in the
table in both implementations, but the data_processing join returns an
incomplete-data flag of `false` for it, while the claim (and the
session_object implementation) require `true`. -/
theorem c2_uncovered_lap_flag_divergence :
    ((DataProcessing.assign_tire_information_to_lap
        [addActualLapTime uncoveredLap5] [coveringStint]).1.map tireProjection)
      = [(5, none, none, none)]
    ∧ (DataProcessing.assign_tire_information_to_lap
        [addActualLapTime uncoveredLap5] [coveringStint]).2 = false
    ∧ ((SessionObject.assign_tire_information_to_lap
        [addActualLapTime uncoveredLap5] [coveringStint]).1.map tireProjection)
      = [(5, none, none, none)]
    ∧ (SessionObject.assign_tire_information_to_lap
        [addActualLapTime uncoveredLap5] [coveringStint]).2 = true := by
  refine ⟨by decide, by decide, by decide, by decide⟩

/-- The base row of a merged row is the lap row it was built from. -/
theorem SessionObject.mergeRow_base (ss : List Stint) (l : LapRow) :
    (SessionObject.mergeRow ss l).base = l := by
  unfold SessionObject.mergeRow
  cases SessionObject.matchStint ss l.lap_number with
  | none => rfl
  | some s =>
    by_cases h : l.lap_number ≤ s.lap_end
    · simp [h]
    · simp [h]

/-- C3: every row assembled by the session pipeline carries an
`actual_lap_time` equal to the rounded sum of its own three sector
durations, whatever its API-supplied `lap_duration` holds. -/
theorem c3_actual_lap_time_from_sectors (raw : List RawLap) (stints : List Stint)
    (r : TireLapRow) (hr : r ∈ SessionObject.assemble_driver_laps raw stints) :
    r.base.actual_lap_time = sumSectors r.base.duration_sector_1
      r.base.duration_sector_2 r.base.duration_sector_3 := by
  unfold SessionObject.assemble_driver_laps SessionObject.assign_tire_information_to_lap at hr
  simp only [List.mem_map] at hr
  obtain ⟨m, ⟨l, hl, hml⟩, hrm⟩ := hr
  have hlaps : l ∈ (raw.map addActualLapTime) :=
    (List.perm_insertionSort lapNumberLE (raw.map addActualLapTime)).mem_iff.mp hl
  simp only [List.mem_map] at hlaps
  obtain ⟨a, _, hla⟩ := hlaps
  have hbase : r.base = l := by
    rw [← hrm, ← hml, SessionObject.mergeRow_base]
  rw [hbase, ← hla]
  rfl

/-- Closed witness for C3 at a concrete lap with sectors 30, 31 and 32.5
seconds. -/
theorem c3_actual_lap_time_from_sectors_witness :
    sectorRow.base.actual_lap_time = sumSectors sectorRow.base.duration_sector_1
      sectorRow.base.duration_sector_2 sectorRow.base.duration_sector_3 :=
  c3_actual_lap_time_from_sectors [sectorLap] [] sectorRow (List.mem_singleton.mpr rfl)

/-- C4 counterexample: the claim assigns a lap starting at `T0 + 20min` to
Q2, but with the fixed constants the Q2 window only starts at `T0 + 25min`,
so the code labels that lap "Q1". Session start 0, end 3600 (60 min, no red
flag), lap at 1200 s = 20 min. -/
theorem c4_lap_at_20min_gets_q1 :
    DataProcessing.match_laps_to_qualifying_session 0 3600 [qualLapAt 1200]
      = .ok [{ qualLapAt 1200 with qualifying := some "Q1" }]
    ∧ ("Q1" : String) ≠ "Q2" := by
  refine ⟨rfl, by decide⟩

/-- C4 (amended): for a session of at most 70 minutes, the lap-to-window
assignment maps a lap at `T0 + 10min` to Q1, at `T0 + 20min` to Q1 (the Q2
window starts only at `T0 + 25min`), at `T0 + 30min` to Q2 and at
`T0 + 50min` to Q3. -/
theorem c4_window_assignment (T0 Tend : ℤ) (hdur : Tend - T0 ≤ 70 * 60) :
    DataProcessing.match_laps_to_qualifying_session T0 Tend
        [qualLapAt (T0 + 600), qualLapAt (T0 + 1200),
         qualLapAt (T0 + 1800), qualLapAt (T0 + 3000)]
      = .ok [{ qualLapAt (T0 + 600) with qualifying := some "Q1" },
             { qualLapAt (T0 + 1200) with qualifying := some "Q1" },
             { qualLapAt (T0 + 1800) with qualifying := some "Q2" },
             { qualLapAt (T0 + 3000) with qualifying := some "Q3" }] := by
  have h1 : labelOf T0 (T0 + 600) = "Q1" := by
    simp only [labelOf, q3StartOffset, q2StartOffset]
    rw [if_pos (by omega)]
  have h2 : labelOf T0 (T0 + 1200) = "Q1" := by
    simp only [labelOf, q3StartOffset, q2StartOffset]
    rw [if_pos (by omega)]
  have h3 : labelOf T0 (T0 + 1800) = "Q2" := by
    simp only [labelOf, q3StartOffset, q2StartOffset]
    rw [if_neg (by omega), if_pos (by omega)]
  have h4 : labelOf T0 (T0 + 3000) = "Q3" := by
    simp only [labelOf, q3StartOffset, q2StartOffset]
    rw [if_neg (by omega), if_neg (by omega)]
  unfold DataProcessing.match_laps_to_qualifying_session
  rw [if_neg (by omega)]
  simp [labelRows, qualLapAt, h1, h2, h3, h4]

/-- Closed witness for the amended C4 at session start 0 and end 3600. -/
theorem c4_window_assignment_witness :
    DataProcessing.match_laps_to_qualifying_session 0 3600
        [qualLapAt 600, qualLapAt 1200, qualLapAt 1800, qualLapAt 3000]
      = .ok [{ qualLapAt 600 with qualifying := some "Q1" },
             { qualLapAt 1200 with qualifying := some "Q1" },
             { qualLapAt 1800 with qualifying := some "Q2" },
             { qualLapAt 3000 with qualifying := some "Q3" }] := by
  have h := c4_window_assignment 0 3600 (by decide)
  simpa using h

/-- Pairing numbers with acronyms positionally raises `IndexError` when
there are fewer acronyms than numbers. -/
theorem SessionObject.buildMatching_short (ns : List ℤ) (acs : List String)
    (h : acs.length < ns.length) :
    SessionObject.buildMatching ns acs = .error .indexError := by
  induction ns generalizing acs with
  | nil => simp at h
  | cons n rest ih =>
    cases acs with
    | nil => rfl
    | cons a arest =>
      have : arest.length < rest.length := by simpa using h
      unfold SessionObject.buildMatching
      rw [ih arest this]
      rfl

/-- C6: when the drivers endpoint yields 19 unique driver numbers but only
18 unique acronyms, neither implementation produces a mapping: the
data_processing resolver returns `None` after its explicit count check, and
the session_object resolver fails with an `IndexError` from positional
indexing — no partial or mis-paired number-to-acronym mapping escapes. -/
theorem c6_roster_count_mismatch_fails (rows : List DriverRec)
    (h1 : (uniqueFirst (rows.map (fun r => r.driver_number))).length = 19)
    (h2 : (uniqueFirst (rows.map (fun r => r.name_acronym))).length = 18) :
    DataProcessing.get_all_drivers_in_session 200 rows = none
    ∧ SessionObject.drivers_match_numbers_to_acronyms ⟨200, rows⟩
        = .error .indexError := by
  constructor
  · unfold DataProcessing.get_all_drivers_in_session
    rw [if_neg (by decide)]
    simp only [h1, h2]
    rw [if_pos (by decide)]
  · have hne : rows ≠ [] := by
      intro hnil
      rw [hnil] at h1
      simp [uniqueFirst, uniqueFirstGo] at h1
    have hp : HelperFunctions.parseResponse (⟨200, rows⟩ : HttpResponse DriverRec)
        = .ok rows := by
      unfold HelperFunctions.parseResponse
      simp [List.isEmpty_iff, hne]
    unfold SessionObject.drivers_match_numbers_to_acronyms
    rw [hp]
    exact SessionObject.buildMatching_short _ _ (by rw [h1, h2]; decide)

/-- Closed witness for C6 on a roster of 19 numbers with a duplicated
acronym. -/
theorem c6_roster_count_mismatch_fails_witness :
    DataProcessing.get_all_drivers_in_session 200 rosterRows = none
    ∧ SessionObject.drivers_match_numbers_to_acronyms ⟨200, rosterRows⟩
        = .error .indexError :=
  c6_roster_count_mismatch_fails rosterRows (by decide) (by decide)

/-- C8: for responses with statuses [429, 429, 200] the client performs
exactly two retries of the identical request, sleeping 5 seconds before
each, and returns the parsed payload of the final 200 response — no error
reaches the caller. -/
theorem c8_retry_on_429 (req : Request) (b1 b2 body : List String)
    (hbody : body ≠ []) :
    HelperFunctions.check_request req ⟨429, b1⟩ [⟨429, b2⟩, ⟨200, body⟩]
      = some ([req, req], [5, 5], .ok body) := by
  simp [HelperFunctions.check_request, HelperFunctions.parseResponse,
    List.isEmpty_iff, hbody]

/-- Closed witness for C8 with a one-record final payload. -/
theorem c8_retry_on_429_witness :
    HelperFunctions.check_request lapsRequest ⟨429, []⟩ [⟨429, []⟩, ⟨200, ["rec"]⟩]
      = some ([lapsRequest, lapsRequest], [5, 5], .ok ["rec"]) :=
  c8_retry_on_429 lapsRequest [] [] ["rec"] (by decide)

/-- Removing from the roster a driver whose laps request succeeds with an
empty payload does not change the data_processing assembly: the driver is
skipped. -/
theorem DataProcessing.getAllLapsGo_skip (lapResp : ℤ → Nat × List RawLap)
    (stintsF : ℤ → List Stint) (d0 : ℤ) (hst : (lapResp d0).1 = 200)
    (hempty : (lapResp d0).2 = []) (matching : List (ℤ × String)) :
    DataProcessing.getAllLapsGo lapResp stintsF matching
      = DataProcessing.getAllLapsGo lapResp stintsF
          (matching.filter (fun p => p.1 ≠ d0)) := by
  induction matching with
  | nil => rfl
  | cons p rest ih =>
    obtain ⟨d, acr⟩ := p
    by_cases hd : d = d0
    · subst hd
      have hfilter : ((d, acr) :: rest).filter (fun p => p.1 ≠ d)
          = rest.filter (fun p => p.1 ≠ d) := by
        simp [List.filter]
      have hstep : DataProcessing.getAllLapsGo lapResp stintsF ((d, acr) :: rest)
          = DataProcessing.getAllLapsGo lapResp stintsF rest := by
        conv_lhs => unfold DataProcessing.getAllLapsGo
        rw [if_neg (by rw [hst]; decide), if_pos hempty]
      calc DataProcessing.getAllLapsGo lapResp stintsF ((d, acr) :: rest)
          = DataProcessing.getAllLapsGo lapResp stintsF rest := hstep
        _ = DataProcessing.getAllLapsGo lapResp stintsF
              (rest.filter (fun p => p.1 ≠ d)) := ih
        _ = DataProcessing.getAllLapsGo lapResp stintsF
              (((d, acr) :: rest).filter (fun p => p.1 ≠ d)) := by rw [hfilter]
    · have hfilter : ((d, acr) :: rest).filter (fun p => p.1 ≠ d0)
          = (d, acr) :: rest.filter (fun p => p.1 ≠ d0) := by
        simp [List.filter, hd]
      rw [hfilter]
      conv_lhs => unfold DataProcessing.getAllLapsGo
      conv_rhs => unfold DataProcessing.getAllLapsGo
      rw [ih]

/-- Every key of the assembled dictionary belongs to a driver whose laps
payload was nonempty. -/
theorem DataProcessing.getAllLapsGo_keys (lapResp : ℤ → Nat × List RawLap)
    (stintsF : ℤ → List Stint) (d0 : ℤ) (hempty : (lapResp d0).2 = [])
    (matching : List (ℤ × String)) :
    ∀ p ∈ (DataProcessing.getAllLapsGo lapResp stintsF matching).getD [],
      p.1 ≠ d0 := by
  induction matching with
  | nil => intro p hp; simp [DataProcessing.getAllLapsGo] at hp
  | cons q rest ih =>
    obtain ⟨d, acr⟩ := q
    intro p hp
    unfold DataProcessing.getAllLapsGo at hp
    by_cases h200 : (lapResp d).1 ≠ 200
    · rw [if_pos h200] at hp
      simp at hp
    · rw [if_neg h200] at hp
      by_cases hpay : (lapResp d).2 = []
      · rw [if_pos hpay] at hp
        exact ih p hp
      · rw [if_neg hpay] at hp
        rcases hrec : DataProcessing.getAllLapsGo lapResp stintsF rest with _ | out
        · rw [hrec] at hp
          simp at hp
        · rw [hrec] at hp
          simp only [Option.getD_some, List.mem_cons] at hp
          rcases hp with hp | hp
          · have hd : p.1 = d := by rw [hp]
            rw [hd]
            intro hdd
            rw [hdd] at hpay
            exact hpay hempty
          · have := ih p
            rw [hrec] at this
            exact this hp

/-- C7 (amended): in the data_processing assembly a driver whose laps
request returns 200 with zero records is skipped silently — the result is
the same as if the driver were absent from the roster, and the driver has
no entry in the final table set. (The session_object assembly instead
raises on such a driver; see the counterexample.) -/
theorem c7_dp_skips_empty_driver (matching : List (ℤ × String))
    (lapResp : ℤ → Nat × List RawLap) (stintsF : ℤ → List Stint) (d0 : ℤ)
    (hst : (lapResp d0).1 = 200) (hempty : (lapResp d0).2 = []) :
    DataProcessing.get_all_laps_in_session matching lapResp stintsF
      = DataProcessing.get_all_laps_in_session
          (matching.filter (fun p => p.1 ≠ d0)) lapResp stintsF
    ∧ ∀ p ∈ (DataProcessing.get_all_laps_in_session matching lapResp stintsF).getD [],
        p.1 ≠ d0 :=
  ⟨DataProcessing.getAllLapsGo_skip lapResp stintsF d0 hst hempty matching,
   DataProcessing.getAllLapsGo_keys lapResp stintsF d0 hempty matching⟩

/-- Closed witness for the amended C7: driver 1 has an empty laps payload
and is skipped; driver 44 is assembled. -/
theorem c7_dp_skips_empty_driver_witness :
    DataProcessing.get_all_laps_in_session skipMatching skipLapRespDp (fun _ => [coveringStint])
      = DataProcessing.get_all_laps_in_session
          (skipMatching.filter (fun p => p.1 ≠ 1)) skipLapRespDp (fun _ => [coveringStint])
    ∧ ∀ p ∈ (DataProcessing.get_all_laps_in_session skipMatching skipLapRespDp
          (fun _ => [coveringStint])).getD [], p.1 ≠ 1 :=
  c7_dp_skips_empty_driver skipMatching skipLapRespDp (fun _ => [coveringStint]) 1
    (by decide) (by decide)

/-- C7 counterexample: the session_object assembly does not skip a driver
with an empty laps payload — `check_request` raises on the empty body and
the whole assembly aborts with an error, contradicting the claim that such
a driver is skipped silently with no error. -/
theorem c7_session_object_errors_on_empty_laps :
    SessionObject.get_session_laps_data skipMatching skipLapRespSo (fun _ => [coveringStint])
      = .error .valueNoData := rfl

/-- C9 counterexample: requesting lap 7 for a driver whose lap table holds
laps 1 and 2 makes `get_track_position_for_lap` raise `KeyError` (from the
`.loc` lookup of the lap start time) instead of logging a warning and
returning no result, refuting the claim for this entry point. -/
theorem c9_track_position_raises_on_absent_lap :
    SessionObject.get_track_position_for_lap telemetryState 7 1 false
        ⟨200, [⟨100, 1, 1, 0⟩]⟩
      = .error .keyError := rfl

/-- C9 (amended): for a lap number absent from the driver's table and
beyond its row labels, only the car-telemetry entry point logs a warning
and returns no result; `get_track_position_for_lap` raises `KeyError`, and
`match_track_position_and_gear` propagates that `KeyError` after the
telemetry call soft-failed. -/
theorem c9_absent_lap_behaviour (st : SessionState) (lapN dN : ℤ)
    (df : List TireLapRow) (carResp : HttpResponse CarSample)
    (locResp : HttpResponse LocSample)
    (hdf : lookupDriver st.session_lap_data_dict dN = some df)
    (habsent : lapN ∉ df.map (fun r => r.base.lap_number))
    (hbeyond : (df.length : ℤ) ≤ lapN) :
    SessionObject.get_lap_telemetry_data st lapN dN false carResp
      = (["Lap number not found in session lap data."], .ok none)
    ∧ SessionObject.get_track_position_for_lap st lapN dN false locResp
      = .error .keyError
    ∧ SessionObject.match_track_position_and_gear st lapN dN false carResp locResp
      = (["Lap number not found in session lap data."], .error .keyError) := by
  have hloc : locRow df lapN = none := by
    unfold locRow
    rw [if_neg (by omega)]
    exact List.get?_eq_none.mpr (by omega)
  have hwindow : SessionObject.get_lap_start_and_end_time st lapN dN false
      = .error .keyError := by
    simp [SessionObject.get_lap_start_and_end_time, hdf, hloc]
  have htel : SessionObject.get_lap_telemetry_data st lapN dN false carResp
      = (["Lap number not found in session lap data."], .ok none) := by
    simp [SessionObject.get_lap_telemetry_data, hdf, habsent]
  have hpos : SessionObject.get_track_position_for_lap st lapN dN false locResp
      = .error .keyError := by
    simp [SessionObject.get_track_position_for_lap, hwindow]
  refine ⟨htel, hpos, ?_⟩
  simp [SessionObject.match_track_position_and_gear, htel, hpos]

/-- Closed witness for the amended C9 at lap 7 of a two-lap table. -/
theorem c9_absent_lap_behaviour_witness :
    SessionObject.get_lap_telemetry_data telemetryState 7 1 false ⟨200, [⟨100, 1, 1, 1, 0⟩]⟩
      = (["Lap number not found in session lap data."], .ok none)
    ∧ SessionObject.get_track_position_for_lap telemetryState 7 1 false ⟨200, [⟨100, 1, 1, 0⟩]⟩
      = .error .keyError
    ∧ SessionObject.match_track_position_and_gear telemetryState 7 1 false
        ⟨200, [⟨100, 1, 1, 1, 0⟩]⟩ ⟨200, [⟨100, 1, 1, 0⟩]⟩
      = (["Lap number not found in session lap data."], .error .keyError) :=
  c9_absent_lap_behaviour telemetryState 7 1 [telemetryLapRow 1, telemetryLapRow 2]
    ⟨200, [⟨100, 1, 1, 1, 0⟩]⟩ ⟨200, [⟨100, 1, 1, 0⟩]⟩ rfl (by decide) (by decide)

/-- C10: the qualifying lap-window assignment works on a copy — in the heap
model the caller's table at index `i` is unchanged after the call (no
"Qualifying" column is added to it and its dates are untouched), the
returned table is a fresh object, and only the returned table carries the
labels. -/
theorem c10_match_laps_copies_input (T0 Tend : ℤ)
    (heap : List (List SessionRow)) (i : Nat) (hi : i < heap.length)
    (hdur : Tend - T0 ≤ 70 * 60) :
    DataProcessing.matchLapsHeap T0 Tend heap i
      = .ok (heap ++ [labelRows T0 (heap.get ⟨i, hi⟩)], heap.length)
    ∧ (heap ++ [labelRows T0 (heap.get ⟨i, hi⟩)]).get? i = heap.get? i
    ∧ heap.length ≠ i := by
  have hn : ¬(4200 < Tend - T0) := by omega
  refine ⟨?_, List.get?_append hi, by omega⟩
  simp [DataProcessing.matchLapsHeap, DataProcessing.match_laps_to_qualifying_session,
    List.getElem?_eq_getElem hi, hn]

/-- Closed witness for C10 on a one-table heap. -/
theorem c10_match_laps_copies_input_witness :
    DataProcessing.matchLapsHeap 0 3600 [[qualLapAt 600]] 0
      = .ok ([[qualLapAt 600]] ++ [labelRows 0 ([[qualLapAt 600]].get ⟨0, by decide⟩)], 1)
    ∧ ([[qualLapAt 600]] ++ [labelRows 0 ([[qualLapAt 600]].get ⟨0, by decide⟩)]).get? 0
      = [[qualLapAt 600]].get? 0
    ∧ (1 : Nat) ≠ 0 :=
  c10_match_laps_copies_input 0 3600 [[qualLapAt 600]] 0 (by decide) (by decide)

/-- Rows kept by the dedup pass come from the input list. -/
theorem dedupDriverGo_mem (seen : List ℤ) (l : List SessionRow) (r : SessionRow)
    (h : r ∈ dedupDriverGo seen l) : r ∈ l := by
  induction l generalizing seen with
  | nil => simp [dedupDriverGo] at h
  | cons a rest ih =>
    unfold dedupDriverGo at h
    by_cases ha : a.driver_number ∈ seen
    · rw [if_pos ha] at h
      exact List.mem_cons_of_mem a (ih _ h)
    · rw [if_neg ha] at h
      rcases List.mem_cons.mp h with h1 | h2
      · exact h1 ▸ List.mem_cons_self a rest
      · exact List.mem_cons_of_mem a (ih _ h2)

/-- Rows kept by the dedup pass have drivers outside the seen set. -/
theorem dedupDriverGo_not_seen (seen : List ℤ) (l : List SessionRow) (r : SessionRow)
    (h : r ∈ dedupDriverGo seen l) : r.driver_number ∉ seen := by
  induction l generalizing seen with
  | nil => simp [dedupDriverGo] at h
  | cons a rest ih =>
    unfold dedupDriverGo at h
    by_cases ha : a.driver_number ∈ seen
    · rw [if_pos ha] at h
      exact ih _ h
    · rw [if_neg ha] at h
      rcases List.mem_cons.mp h with h1 | h2
      · rw [h1]; exact ha
      · exact fun hs => (ih _ h2) (List.mem_cons_of_mem _ hs)

/-- The dedup pass leaves no duplicate drivers. -/
theorem dedupDriverGo_nodup (seen : List ℤ) (l : List SessionRow) :
    ((dedupDriverGo seen l).map (fun r => r.driver_number)).Nodup := by
  induction l generalizing seen with
  | nil => simp [dedupDriverGo]
  | cons a rest ih =>
    unfold dedupDriverGo
    by_cases ha : a.driver_number ∈ seen
    · rw [if_pos ha]
      exact ih seen
    · rw [if_neg ha]
      simp only [List.map_cons, List.nodup_cons]
      refine ⟨?_, ih _⟩
      intro hmem
      rcases List.mem_map.mp hmem with ⟨r, hr, hdr⟩
      exact (dedupDriverGo_not_seen _ _ _ hr) (hdr ▸ List.mem_cons_self _ _)

/-- The dedup pass keeps exactly one row per distinct unseen driver. -/
theorem dedupDriverGo_length (seen : List ℤ) (l : List SessionRow) :
    (dedupDriverGo seen l).length
      = ((l.map (fun r => r.driver_number)).toFinset \ seen.toFinset).card := by
  induction l generalizing seen with
  | nil => simp [dedupDriverGo]
  | cons a rest ih =>
    unfold dedupDriverGo
    by_cases ha : a.driver_number ∈ seen
    · rw [if_pos ha, ih seen]
      have hset : ((a :: rest).map (fun r => r.driver_number)).toFinset \ seen.toFinset
          = ((rest.map (fun r => r.driver_number)).toFinset) \ seen.toFinset := by
        rw [List.map_cons, List.toFinset_cons]
        exact Finset.insert_sdiff_of_mem _ (List.mem_toFinset.mpr ha)
      rw [hset]
    · rw [if_neg ha]
      simp only [List.length_cons, ih]
      have hset : ((a :: rest).map (fun r => r.driver_number)).toFinset \ seen.toFinset
          = insert a.driver_number
              ((rest.map (fun r => r.driver_number)).toFinset
                \ (a.driver_number :: seen).toFinset) := by
        ext x
        simp only [List.map_cons, List.toFinset_cons, Finset.mem_sdiff,
          Finset.mem_insert, List.mem_toFinset]
        constructor
        · rintro ⟨hx1 | hx2, hx3⟩
          · exact Or.inl hx1
          · by_cases hxa : x = a.driver_number
            · exact Or.inl hxa
            · exact Or.inr ⟨hx2, by simp [hxa, hx3]⟩
        · rintro (hx | ⟨hx1, hx2⟩)
          · exact ⟨Or.inl hx, by rw [hx]; exact ha⟩
          · push_neg at hx2
            exact ⟨Or.inr hx1, hx2.2⟩
      rw [hset, Finset.card_insert_of_not_mem (by simp)]

/-- The length of a window classification is the number of distinct drivers
with a kept (non-pit-out) lap in the window. -/
theorem qClass_length (rows : List SessionRow) :
    (qClass rows).length
      = ((pitFiltered rows).map (fun r => r.driver_number)).toFinset.card := by
  unfold qClass
  rw [dedupDriverGo_length]
  simp only [List.toFinset_nil, Finset.sdiff_empty]
  congr 1
  apply Finset.ext
  intro x
  simp only [List.mem_toFinset]
  exact ((List.perm_insertionSort rowLE (pitFiltered rows)).map
    (fun r => r.driver_number)).mem_iff

/-- Every classified row's driver laps in the window. -/
theorem qClass_driver_mem (rows : List SessionRow) (r : SessionRow)
    (h : r ∈ qClass rows) :
    r.driver_number ∈ ((pitFiltered rows).map (fun r => r.driver_number)).toFinset := by
  unfold qClass at h
  have h1 := dedupDriverGo_mem _ _ _ h
  have h2 : r ∈ pitFiltered rows :=
    (List.perm_insertionSort rowLE (pitFiltered rows)).mem_iff.mp h1
  exact List.mem_toFinset.mpr (List.mem_map_of_mem _ h2)

/-- A window classification has no duplicate drivers. -/
theorem qClass_nodup (rows : List SessionRow) :
    ((qClass rows).map (fun r => r.driver_number)).Nodup :=
  dedupDriverGo_nodup [] _

/-- The tail-five rows come from the list. -/
theorem tail5_subset (l : List SessionRow) (r : SessionRow) (h : r ∈ tail5 l) :
    r ∈ l :=
  List.drop_subset _ l h

/-- The tail five of a list with at least five rows has exactly five. -/
theorem tail5_length (l : List SessionRow) (h : 5 ≤ l.length) :
    (tail5 l).length = 5 := by
  unfold tail5
  rw [List.length_drop]
  omega

/-- The tail five keep distinct drivers when the list had distinct drivers. -/
theorem tail5_nodup (l : List SessionRow)
    (h : (l.map (fun r => r.driver_number)).Nodup) :
    ((tail5 l).map (fun r => r.driver_number)).Nodup :=
  List.Nodup.sublist ((List.drop_sublist _ _).map _) h

/-- C5: for a standard 20-driver qualifying session — 20 distinct drivers
with kept laps in the Q1 window, 15 in Q2, 10 in Q3, every Q3 driver also
in Q2, and the five slowest of Q1 (resp. Q2) not running in Q2 (resp. Q3) —
the elimination-ordered table is the full 10-row Q3 classification followed
by the five slowest Q2 drivers followed by the five slowest Q1 drivers:
exactly 20 rows with no driver appearing twice. -/
theorem c5_elimination_order (T0 Tend : ℤ) (rows : List SessionRow)
    (hdur : Tend - T0 ≤ 70 * 60)
    (h1 : (segDrivers "Q1" T0 rows).card = 20)
    (h2 : (segDrivers "Q2" T0 rows).card = 15)
    (h3 : (segDrivers "Q3" T0 rows).card = 10)
    (hsub : segDrivers "Q3" T0 rows ⊆ segDrivers "Q2" T0 rows)
    (he1 : ∀ r ∈ tail5 (qualClass "Q1" T0 rows),
      r.driver_number ∉ segDrivers "Q2" T0 rows)
    (he2 : ∀ r ∈ tail5 (qualClass "Q2" T0 rows),
      r.driver_number ∉ segDrivers "Q3" T0 rows) :
    DataProcessing.get_qualifying_results "Qualifying" T0 Tend rows
      = .ok ([qualClass "Q1" T0 rows, qualClass "Q2" T0 rows, qualClass "Q3" T0 rows],
          qualClass "Q3" T0 rows
            ++ (tail5 (qualClass "Q2" T0 rows) ++ tail5 (qualClass "Q1" T0 rows)))
    ∧ (qualClass "Q3" T0 rows
        ++ (tail5 (qualClass "Q2" T0 rows) ++ tail5 (qualClass "Q1" T0 rows))).length = 20
    ∧ (qualClass "Q3" T0 rows).length = 10
    ∧ (tail5 (qualClass "Q2" T0 rows)).length = 5
    ∧ (tail5 (qualClass "Q1" T0 rows)).length = 5
    ∧ ((qualClass "Q3" T0 rows
        ++ (tail5 (qualClass "Q2" T0 rows) ++ tail5 (qualClass "Q1" T0 rows))).map
          (fun r => r.driver_number)).Nodup := by
  have hL1 : (qualClass "Q1" T0 rows).length = 20 := by
    unfold qualClass
    rw [qClass_length]
    exact h1
  have hL2 : (qualClass "Q2" T0 rows).length = 15 := by
    unfold qualClass
    rw [qClass_length]
    exact h2
  have hL3 : (qualClass "Q3" T0 rows).length = 10 := by
    unfold qualClass
    rw [qClass_length]
    exact h3
  have ht2 : (tail5 (qualClass "Q2" T0 rows)).length = 5 := tail5_length _ (by omega)
  have ht1 : (tail5 (qualClass "Q1" T0 rows)).length = 5 := tail5_length _ (by omega)
  have hmem3 : ∀ x ∈ (qualClass "Q3" T0 rows).map (fun r => r.driver_number),
      x ∈ segDrivers "Q3" T0 rows := by
    intro x hx
    rcases List.mem_map.mp hx with ⟨r, hr, hxr⟩
    exact hxr ▸ qClass_driver_mem _ _ hr
  have hmem2t : ∀ x ∈ (tail5 (qualClass "Q2" T0 rows)).map (fun r => r.driver_number),
      x ∈ segDrivers "Q2" T0 rows := by
    intro x hx
    rcases List.mem_map.mp hx with ⟨r, hr, hxr⟩
    exact hxr ▸ qClass_driver_mem _ _ (tail5_subset _ _ hr)
  have hd32 : ∀ x ∈ (qualClass "Q3" T0 rows).map (fun r => r.driver_number),
      x ∉ (tail5 (qualClass "Q2" T0 rows)).map (fun r => r.driver_number) := by
    intro x hx3 hx2
    rcases List.mem_map.mp hx2 with ⟨r, hr, hxr⟩
    exact he2 r hr (hxr ▸ hmem3 x hx3)
  have hd31 : ∀ x ∈ (qualClass "Q3" T0 rows).map (fun r => r.driver_number),
      x ∉ (tail5 (qualClass "Q1" T0 rows)).map (fun r => r.driver_number) := by
    intro x hx3 hx1
    rcases List.mem_map.mp hx1 with ⟨r, hr, hxr⟩
    exact he1 r hr (hxr ▸ hsub (hmem3 x hx3))
  have hd21 : ∀ x ∈ (tail5 (qualClass "Q2" T0 rows)).map (fun r => r.driver_number),
      x ∉ (tail5 (qualClass "Q1" T0 rows)).map (fun r => r.driver_number) := by
    intro x hx2 hx1
    rcases List.mem_map.mp hx1 with ⟨r, hr, hxr⟩
    exact he1 r hr (hxr ▸ hmem2t x hx2)
  refine ⟨?_, ?_, hL3, ht2, ht1, ?_⟩
  · unfold DataProcessing.get_qualifying_results
      DataProcessing.match_laps_to_qualifying_session
    rw [if_neg (by decide), if_neg (by omega)]
    rfl
  · simp only [List.length_append, hL3, ht2, ht1]
  · simp only [List.map_append]
    rw [List.nodup_append, List.nodup_append]
    refine ⟨qClass_nodup _,
      ⟨tail5_nodup _ (qClass_nodup _), tail5_nodup _ (qClass_nodup _), ?_⟩, ?_⟩
    · intro x hx2 hx1
      exact hd21 x hx2 hx1
    · intro x hx3 hx
      rcases List.mem_append.mp hx with hx2 | hx1
      · exact hd32 x hx3 hx2
      · exact hd31 x hx3 hx1

set_option maxRecDepth 100000 in
/-- Closed witness for C5 on a concrete standard session: drivers 1-20 run
Q1, 1-15 run Q2, 1-10 run Q3, driver `d` lapping in `d` seconds. -/
theorem c5_elimination_order_witness :
    DataProcessing.get_qualifying_results "Qualifying" 0 3600 standardSession
      = .ok ([qualClass "Q1" 0 standardSession, qualClass "Q2" 0 standardSession,
              qualClass "Q3" 0 standardSession],
          qualClass "Q3" 0 standardSession
            ++ (tail5 (qualClass "Q2" 0 standardSession)
              ++ tail5 (qualClass "Q1" 0 standardSession)))
    ∧ (qualClass "Q3" 0 standardSession
        ++ (tail5 (qualClass "Q2" 0 standardSession)
          ++ tail5 (qualClass "Q1" 0 standardSession))).length = 20
    ∧ (qualClass "Q3" 0 standardSession).length = 10
    ∧ (tail5 (qualClass "Q2" 0 standardSession)).length = 5
    ∧ (tail5 (qualClass "Q1" 0 standardSession)).length = 5
    ∧ ((qualClass "Q3" 0 standardSession
        ++ (tail5 (qualClass "Q2" 0 standardSession)
          ++ tail5 (qualClass "Q1" 0 standardSession))).map
            (fun r => r.driver_number)).Nodup :=
  c5_elimination_order 0 3600 standardSession (by decide) (by decide) (by decide)
    (by decide) (by decide) (by decide) (by decide)
